import Mathlib

/-!
Verification of the Hockey-Teams-Analysis scraper and analysis utilities.

The development is a shallow embedding of `src/main.py`,
`src/data_processor.py` and `src/utils/hockey_da_util.py`:

* HTML pages are modelled structurally, as the parse results the CSS
  selectors of `main.py` observe: a list of `tr.team` rows (each with the
  nine named cell texts) and an optional pagination anchor element.
* The network is a pure map from URL to either a transport error
  (an `httpx.HTTPError` message) or an HTTP response (status + parsed body);
  `httpx.get` never raises on a non-2xx status because the code never calls
  `raise_for_status`.
* `datetime.now()` is modelled by an explicit stamp function from row index
  (and page URL) to timestamp text.
* The file system of the `__main__` block is a pure record of directories
  and CSV file contents.
* pandas dataframes of the downstream stages are modelled column-wise
  (`data_processor.py`) or row-wise (`hockey_da_util.py`), with cells that
  can be missing (`NaN`), text, or integers.
-/

namespace HockeyTeams

/-- Cell texts of one `<tr class="team">` row, as selected by
`row.css_first("td.<cls>").text()` in `fetch_hockey_stats`.  A value of this
type is a well-formed team row: all nine cells are present. -/
structure TeamRow where
  name : String
  year : String
  wins : String
  losses : String
  ot_losses : String
  pct : String
  gf : String
  ga : String
  diff : String
deriving DecidableEq

/-- The anchor element matched by
`ul.pagination li a[aria-label='Next']`; its `attrs` dictionary may or may
not contain an `href` key. -/
structure NextAnchor where
  href : Option String
deriving DecidableEq

/-- The parse result of one page's HTML, restricted to what `main.py`
observes: the team rows matched by `div#page table tbody tr.team` and the
first pagination anchor matched by `ul.pagination li a[aria-label='Next']`
(`none` when `css_first` returns `None`). -/
structure Page where
  rows : List TeamRow
  nextAnchor : Option NextAnchor
deriving DecidableEq

/-- An HTTP response: status code and parsed body (`HTMLParser(response.text)`).
The code never inspects the status. -/
structure Response where
  status : Nat
  page : Page
deriving DecidableEq

/-- A pure model of the network seen by `httpx.get`: either a transport
error (`httpx.HTTPError`, carried as its message) or a response.  A non-2xx
status is an `.ok` response, not an error, since the code never calls
`raise_for_status`. -/
abbrev Network : Type := String → Except String Response

/-- The data class `Hockey` of `main.py`: all ten fields are strings. -/
structure Hockey where
  team_name : String
  year : String
  wins : String
  losses : String
  ot_losses : String
  win_pct : String
  goals_for : String
  goals_against : String
  goals_diff : String
  scrape_timestamp : String
deriving DecidableEq

/-- Constant `ROOT_URL` of `main.py`. -/
def ROOT_URL : String := "https://www.scrapethissite.com/"

/-- Python's `str.strip()`: drop leading and trailing whitespace. -/
def pyStrip (s : String) : String :=
  String.mk (((s.data.dropWhile Char.isWhitespace).reverse.dropWhile
    Char.isWhitespace).reverse)

/-- One `Hockey(...)` construction of `fetch_hockey_stats`: every cell text
is `.strip()`ped and the timestamp is the wall-clock text for this row. -/
def mkHockey (ts : String) (row : TeamRow) : Hockey :=
  { team_name := pyStrip row.name
    year := pyStrip row.year
    wins := pyStrip row.wins
    losses := pyStrip row.losses
    ot_losses := pyStrip row.ot_losses
    win_pct := pyStrip row.pct
    goals_for := pyStrip row.gf
    goals_against := pyStrip row.ga
    goals_diff := pyStrip row.diff
    scrape_timestamp := ts }

/-- The row loop of `fetch_hockey_stats`: row number `i` is stamped with
`stamp i`, modelling the per-row `datetime.now().strftime(...)` call. -/
def extractRows (stamp : Nat → String) : Nat → List TeamRow → List Hockey
  | _, [] => []
  | i, r :: rs => mkHockey (stamp i) r :: extractRows stamp (i + 1) rs

/-- `fetch_hockey_stats` of `main.py`: one GET of `page_url` (a transport
error propagates, uncaught here), then extraction of every team row of the
parsed body.  The response status is ignored. -/
def fetch_hockey_stats (net : Network) (stamp : Nat → String)
    (page_url : String) : Except String (List Hockey) :=
  match net page_url with
  | .error e => .error e
  | .ok resp => .ok (extractRows stamp 0 resp.page.rows)

/-- Character class of an RFC-3986 scheme body character, as recognised by
`urllib.parse`. -/
def isSchemeChar (c : Char) : Bool :=
  c.isAlphanum || c = '+' || c = '-' || c = '.'

/-- Scan for `scheme:` after the first character: scheme characters up to a
colon. -/
def schemeBody : List Char → Bool
  | [] => false
  | c :: cs => if c = ':' then true else isSchemeChar c && schemeBody cs

/-- Whether a URL reference starts with a `scheme:` prefix (a letter, then
scheme characters, then a colon), as `urllib.parse.urljoin` decides. -/
def hasScheme : List Char → Bool
  | [] => false
  | c :: cs => c.isAlpha && schemeBody cs

/-- Split an absolute URL's characters at `://` into scheme and remainder,
when that shape is present. -/
def splitScheme : List Char → Option (List Char × List Char)
  | [] => none
  | c :: cs =>
    if c = ':' then
      match cs with
      | '/' :: '/' :: rest => some ([], rest)
      | _ => none
    else
      match splitScheme cs with
      | some (sch, rest) => some (c :: sch, rest)
      | none => none

/-- The characters before the first `/`. -/
def takeUntilSlash : List Char → List Char
  | [] => []
  | c :: cs => if c = '/' then [] else c :: takeUntilSlash cs

/-- The `scheme` part of an absolute base URL. -/
def schemeOf (base : String) : String :=
  match splitScheme base.data with
  | some (sch, _) => String.mk sch
  | none => ""

/-- The `scheme://host` origin of an absolute base URL. -/
def originOf (base : String) : String :=
  match splitScheme base.data with
  | some (sch, rest) =>
    String.mk (sch ++ [':', '/', '/'] ++ takeUntilSlash rest)
  | none => base

/-- The base URL up to and including its last `/`, used for joining a
path-relative reference. -/
def dirOf (base : String) : String :=
  String.mk ((base.data.reverse.dropWhile (fun c => c ≠ '/')).reverse)

/-- Behavioural model of `urllib.parse.urljoin(base, rel)` on the reference
shapes the scraper can meet: empty, absolute with scheme, protocol-relative
(`//...`), root-relative (`/...`), and path-relative. -/
def urljoin (base rel : String) : String :=
  if rel = "" then base
  else if hasScheme rel.data then rel
  else if rel.data.take 2 = ['/', '/'] then schemeOf base ++ ":" ++ rel
  else if rel.data.head? = some '/' then originOf base ++ rel
  else dirOf base ++ rel

/-- A Python exception escaping `get_next_page_url`: an `httpx.HTTPError`
transport failure of the GET, or the `KeyError` of `attrs["href"]` when the
matched anchor has no `href` attribute (only `AttributeError` is caught). -/
inductive PyErr where
  | http : String → PyErr
  | key : PyErr
deriving DecidableEq

/-- `get_next_page_url` of `main.py`: one GET (a transport error propagates,
uncaught), then the `try` block.  `css_first` returning `None` makes
`.attrs` raise `AttributeError`, which the `except` clause turns into
`None`; a found anchor's `href` is joined onto `ROOT_URL`; a found anchor
without `href` raises an uncaught `KeyError`.  The response status is
ignored. -/
def get_next_page_url (net : Network) (current_page_url : String) :
    Except PyErr (Option String) :=
  match net current_page_url with
  | .error e => .error (.http e)
  | .ok resp =>
    match resp.page.nextAnchor with
    | none => .ok none
    | some anchor =>
      match anchor.href with
      | none => .error .key
      | some h => .ok (some (urljoin ROOT_URL h))

/-- The f-string returned by `scrape_and_write_stats` when `httpx.HTTPError`
is caught. -/
def httpErrMsg (url cause : String) : String :=
  "HTTP error occurred while fetching " ++ url ++ ": " ++ cause

/-- How one invocation of `scrape_and_write_stats` ends: a normal Python
return (with its `Optional[str]` value) or an uncaught exception
propagating out. -/
inductive Outcome where
  | returned : Option String → Outcome
  | crashed : PyErr → Outcome
deriving DecidableEq

/-- Observable result of a `scrape_and_write_stats` invocation: the rows it
wrote to the CSV writer (in order), how it ended, and the number of nested
stack frames of `scrape_and_write_stats` it consumed. -/
structure RunResult where
  written : List Hockey
  outcome : Outcome
  depth : Nat
deriving DecidableEq

/-- `scrape_and_write_stats` of `main.py`, with explicit fuel bounding the
recursion depth (the Python recursion is unbounded; every claim is read at
sufficient fuel).  The `try` block runs `fetch_hockey_stats` then
`get_next_page_url` (a second fetch of the same URL); a caught
`httpx.HTTPError` returns the message; only then are the page's rows
written; if a next URL exists the function recurses and DISCARDS the
recursive call's return value, returning `None` itself. -/
def scrape_and_write_stats (net : Network) (stamp : String → Nat → String) :
    Nat → String → RunResult
  | 0, _ => { written := [], outcome := .returned none, depth := 0 }
  | fuel + 1, url =>
    match fetch_hockey_stats net (stamp url) url with
    | .error e => { written := [], outcome := .returned (some (httpErrMsg url e)), depth := 1 }
    | .ok rows =>
      match get_next_page_url net url with
      | .error (.http e) =>
        { written := [], outcome := .returned (some (httpErrMsg url e)), depth := 1 }
      | .error .key => { written := [], outcome := .crashed .key, depth := 1 }
      | .ok none => { written := rows, outcome := .returned none, depth := 1 }
      | .ok (some nxt) =>
        let r := scrape_and_write_stats net stamp fuel nxt
        { written := rows ++ r.written
          outcome := match r.outcome with
            | .crashed e => .crashed e
            | .returned _ => .returned none
          depth := 1 + r.depth }

/-- Constant `START_PAGE_URL` of the `__main__` block. -/
def START_PAGE_URL : String :=
  "https://www.scrapethissite.com/pages/forms/?page_num=1&per_page=100"

/-- Constant `OUTPUT_DIR_PATH` of the `__main__` block. -/
def OUTPUT_DIR_PATH : String := "./data/raw/"

/-- Constant `FILE_NAME` of the `__main__` block. -/
def FILE_NAME : String := "hockey_teams_raw.csv"

/-- `COLUMN_NAMES = [field.name for field in fields(Hockey)]`: the ten
field names of the `Hockey` data class in declaration order. -/
def COLUMN_NAMES : List String :=
  ["team_name", "year", "wins", "losses", "ot_losses", "win_pct",
   "goals_for", "goals_against", "goals_diff", "scrape_timestamp"]

/-- The CSV row `DictWriter` emits for one `Hockey` record: the field
values in `COLUMN_NAMES` order. -/
def hockeyRow (h : Hockey) : List String :=
  [h.team_name, h.year, h.wins, h.losses, h.ot_losses, h.win_pct,
   h.goals_for, h.goals_against, h.goals_diff, h.scrape_timestamp]

/-- A pure file system: the set of existing directories and the CSV files,
each a list of rows of cells. -/
structure Fs where
  dirs : List String
  files : List (String × List (List String))

/-- `os.makedirs(d, exist_ok=True)`. -/
def makedirs (fs : Fs) (d : String) : Fs :=
  if d ∈ fs.dirs then fs else { fs with dirs := d :: fs.dirs }

/-- Set the content of a file, dropping any previous content at that
path. -/
def setFile (fs : Fs) (p : String) (c : List (List String)) : Fs :=
  { fs with files := (p, c) :: fs.files.filter (fun q => q.1 ≠ p) }

/-- Append rows to an already-open file. -/
def appendRows (fs : Fs) (p : String) (rs : List (List String)) : Fs :=
  match fs.files.lookup p with
  | some c => setFile fs p (c ++ rs)
  | none => fs

/-- The `__main__` block of `main.py`: create the output directory
(`exist_ok=True`), open the file in mode `w` (truncating any existing
content), write the header row once, then run `scrape_and_write_stats`
from `START_PAGE_URL`, whose row writes are appended in order. -/
def runMain (net : Network) (stamp : String → Nat → String) (fuel : Nat)
    (fs0 : Fs) : Fs :=
  let fs1 := makedirs fs0 OUTPUT_DIR_PATH
  let path := OUTPUT_DIR_PATH ++ FILE_NAME
  let fs2 := setFile fs1 path []
  let fs3 := appendRows fs2 path [COLUMN_NAMES]
  let res := scrape_and_write_stats net stamp fuel START_PAGE_URL
  appendRows fs3 path (res.written.map hockeyRow)

/-- A record with its scrape timestamp blanked, for comparisons up to the
timestamp field. -/
def eraseTs (h : Hockey) : Hockey := { h with scrape_timestamp := "" }

/-- A pandas cell: missing (`NaN`), text, or integer. -/
inductive Cell where
  | na : Cell
  | str : String → Cell
  | int : Int → Cell
deriving DecidableEq

/-- A pandas dataframe, column-wise: column name paired with its cells. -/
abbrev Df : Type := List (String × List Cell)

/-- The two column names dropped by `data_processor.py`. -/
def dropNames : List String := ["scrape_timestamp", "goals_diff"]

/-- `x.drop(columns=["scrape_timestamp", "goals_diff"])`: removes exactly
those columns, keeping the rest in order; raises `KeyError` (modelled as
`none`) when either is absent. -/
def dropColumns (df : Df) : Option Df :=
  if dropNames.all (fun n => df.any (fun c => c.1 = n)) then
    some (df.filter (fun c => !(dropNames.contains c.1)))
  else none

/-- `fillna(0)` on one cell: a missing value becomes the integer `0`;
everything else is unchanged. -/
def fillCell : Cell → Cell
  | .na => .int 0
  | c => c

/-- `astype(int)` on one cell: integers pass through, numeric text is
parsed, a missing value raises (modelled as `none`). -/
def toIntCell : Cell → Option Cell
  | .int n => some (.int n)
  | .str s => (s.toInt?).map Cell.int
  | .na => none

/-- `astype(str)` on one cell (pandas renders `NaN` as `"nan"`). -/
def toStrCell : Cell → Cell
  | .str s => .str s
  | .int n => .str (toString n)
  | .na => .str "nan"

/-- Option-valued map over the cells of one column. -/
def mapCellsM (f : Cell → Option Cell) : List Cell → Option (List Cell)
  | [] => some []
  | v :: vs =>
    match f v, mapCellsM f vs with
    | some w, some ws => some (w :: ws)
    | _, _ => none

/-- `x.astype({"ot_losses": int, "year": str})` on one column. -/
def astypeCol (colName : String) (vals : List Cell) : Option (List Cell) :=
  if colName = "ot_losses" then mapCellsM toIntCell vals
  else if colName = "year" then some (vals.map toStrCell)
  else some vals

/-- Option-valued map over the columns of a dataframe. -/
def mapColsM (f : String × List Cell → Option (String × List Cell)) :
    Df → Option Df
  | [] => some []
  | c :: cs =>
    match f c, mapColsM f cs with
    | some c2, some cs2 => some (c2 :: cs2)
    | _, _ => none

/-- The `hockey_df` pipeline of `data_processor.py` applied to the loaded
raw dataframe: `drop(columns=[...])`, then
`x.fillna(0) if "ot_losses" in x.columns else x` (note: `fillna(0)` fills
EVERY column's missing values), then
`x.astype({"ot_losses": int, "year": str})`. -/
def hockey_df (raw : Df) : Option Df :=
  match dropColumns raw with
  | none => none
  | some d1 =>
    let d2 :=
      if d1.any (fun c => c.1 = "ot_losses") then
        d1.map (fun c => (c.1, c.2.map fillCell))
      else d1
    mapColsM (fun c => (astypeCol c.1 c.2).map (fun v => (c.1, v))) d2

/-- Reference pipeline written out per column, following the (amended)
specification words: drop the two columns; whenever an `ot_losses` column
survives, fill the missing values of EVERY remaining column with zero;
coerce `ot_losses` to integer and `year` to text; leave other columns'
non-missing values unchanged. -/
def cleanedSpec (raw : Df) : Option Df :=
  if dropNames.all (fun n => raw.any (fun c => c.1 = n)) then
    let kept := raw.filter (fun c => !(dropNames.contains c.1))
    let otPresent := kept.any (fun c => c.1 = "ot_losses")
    mapColsM (fun c =>
      let filled := if otPresent then c.2.map fillCell else c.2
      if c.1 = "ot_losses" then
        (mapCellsM toIntCell filled).map (fun v => (c.1, v))
      else if c.1 = "year" then some (c.1, filled.map toStrCell)
      else some (c.1, filled)) kept
  else none

/-- A row of the analysis dataframe of `hockey_da_util.py`: the team name
and the named numeric columns (values as exact rationals). -/
abbrev StatsDf : Type := List (String × List (String × ℚ))

/-- The projection `dataframe[["team_name", column_name]]`: each row keeps
its team name and the value of the named column. -/
def selectTeamCol (df : StatsDf) (colName : String) : List (String × ℚ) :=
  df.map (fun r => (r.1, (r.2.lookup colName).getD 0))

/-- The values of the named column in the rows of one team's group. -/
def groupVals (pairs : List (String × ℚ)) (k : String) : List ℚ :=
  (pairs.filter (fun p => p.1 == k)).map (fun p => p.2)

/-- Maximum of a list of rationals (`0` for an empty list; groups are never
empty). -/
def listMax : List ℚ → ℚ
  | [] => 0
  | [x] => x
  | x :: y :: xs => max x (listMax (y :: xs))

/-- Minimum of a list of rationals (`0` for an empty list). -/
def listMin : List ℚ → ℚ
  | [] => 0
  | [x] => x
  | x :: y :: xs => min x (listMin (y :: xs))

/-- `.agg(agg_func)` for the pandas aggregation names used by the repo's
notebooks (`sum`, `mean`, `max`, `min`). -/
def applyAgg (agg_func : String) (xs : List ℚ) : ℚ :=
  if agg_func = "sum" then xs.sum
  else if agg_func = "mean" then xs.sum / (xs.length : ℚ)
  else if agg_func = "max" then listMax xs
  else if agg_func = "min" then listMin xs
  else 0

/-- Stable insertion of one element into a sorted list: the new element
goes before the first element it compares `le` to. -/
def insertSorted (le : α → α → Bool) (a : α) : List α → List α
  | [] => [a]
  | b :: bs => if le a b then a :: b :: bs else b :: insertSorted le a bs

/-- Stable insertion sort by a Boolean comparison. -/
def sortBy (le : α → α → Bool) : List α → List α
  | [] => []
  | a :: as => insertSorted le a (sortBy le as)

/-- Lexicographic comparison of character lists by code point, the string
order Python and pandas use. -/
def charListLe : List Char → List Char → Bool
  | [], _ => true
  | _ :: _, [] => false
  | a :: as, b :: bs =>
    if a.val < b.val then true
    else if b.val < a.val then false
    else charListLe as bs

/-- String comparison by code points. -/
def strLe (a b : String) : Bool := charListLe a.data b.data

/-- The group keys of `groupby("team_name")`: distinct team names, sorted
ascending (pandas `groupby` sorts keys by default). -/
def teamKeys (pairs : List (String × ℚ)) : List String :=
  sortBy strLe ((pairs.map (fun p => p.1)).dedup)

/-- `groupby("team_name").agg(agg_func)`: one `(team, aggregate)` pair per
distinct team. -/
def aggByTeam (pairs : List (String × ℚ)) (agg_func : String) :
    List (String × ℚ) :=
  (teamKeys pairs).map (fun k => (k, applyAgg agg_func (groupVals pairs k)))

/-- `top_n_teams` of `hockey_da_util.py`: project to
`["team_name", column_name]`, group by team, aggregate, take the `n`
largest aggregates (`nlargest`, `keep="first"`: a stable descending sort
then the first `n`). -/
def top_n_teams (df : StatsDf) (column_name agg_func : String) (n : Nat) :
    List (String × ℚ) :=
  ((sortBy (fun a b => decide (b.2 ≤ a.2))
    (aggByTeam (selectTeamCol df column_name) agg_func)).take n)

/-- `bottom_n_teams` of `hockey_da_util.py`: as `top_n_teams` but with the
`n` smallest aggregates (`nsmallest`, a stable ascending sort then the
first `n`). -/
def bottom_n_teams (df : StatsDf) (column_name agg_func : String) (n : Nat) :
    List (String × ℚ) :=
  ((sortBy (fun a b => decide (a.2 ≤ b.2))
    (aggByTeam (selectTeamCol df column_name) agg_func)).take n)

/-! Concrete fixtures used by the witnesses and counterexamples below. -/

def c1Row : TeamRow :=
  { name := " Boston Bruins ", year := " 1990 ", wins := " 44 ",
    losses := " 24 ", ot_losses := "", pct := " 0.55 ", gf := " 299 ",
    ga := " 264 ", diff := " 35 " }

def c1Net : Network := fun _ => .ok ⟨200, ⟨[c1Row], none⟩⟩


def c3Net : Network := fun u =>
  if u = "https://www.scrapethissite.com/pages/forms/?page_num=2" then
    .ok ⟨200, ⟨[], some ⟨some "/pages/forms/?page_num=3"⟩⟩⟩
  else .ok ⟨200, ⟨[], none⟩⟩


def c4Net : Network := fun _ => .ok ⟨404, ⟨[], none⟩⟩


def c2Row : TeamRow :=
  { name := "Boston Bruins", year := "1990", wins := "44", losses := "24",
    ot_losses := "", pct := "0.55", gf := "299", ga := "264", diff := "35" }

def c2StartUrl : String :=
  "https://www.scrapethissite.com/pages/forms/?page_num=1"

def c2Page2Url : String :=
  "https://www.scrapethissite.com/pages/forms/?page_num=2"

/-- A two-page scenario: the start page succeeds and links forward via a
root-relative "Next" href; fetching any other URL (in particular page 2)
fails with a transport error. -/
def c2Net : Network := fun u =>
  if u = c2StartUrl then
    .ok ⟨200, ⟨[c2Row], some ⟨some "/pages/forms/?page_num=2"⟩⟩⟩
  else .error "connection timed out"

def c2Stamp : String → Nat → String := fun _ _ => "2023-10-01 12:00:00"


/-! C6: call-stack depth of the orchestrator, on an n-page chain of pages
each linking forward to the next via a root-relative "Next" href. -/

def chainUrl (i : Nat) : String :=
  ROOT_URL ++ String.mk (List.replicate i 'a')

def chainHref (i : Nat) : String :=
  "/" ++ String.mk (List.replicate i 'a')

def chainPage (n i : Nat) : Page :=
  { rows := [],
    nextAnchor := if i + 1 < n then some ⟨some (chainHref (i + 1))⟩ else none }

/-- The n-page chain network: `chainUrl i` resolves for `i < n`; everything
else is a transport error. -/
def chainNet (n : Nat) : Network := fun u =>
  if u = chainUrl (u.length - ROOT_URL.length) ∧
      u.length - ROOT_URL.length < n then
    .ok ⟨200, chainPage n (u.length - ROOT_URL.length)⟩
  else .error "connection failed"

def c6Stamp : String → Nat → String := fun _ _ => "2023-10-01 12:00:00"


/-- The property C6 asserts of the code: the stack depth the orchestrator
consumes is bounded by a constant independent of the run. -/
def boundedStackClaim : Prop :=
  ∃ B : Nat, ∀ (net : Network) (stamp : String → Nat → String)
    (fuel : Nat) (url : String),
    (scrape_and_write_stats net stamp fuel url).depth ≤ B


/-- A raw dataframe with one row in which `wins` — a column other than
`ot_losses` — is missing. -/
def c9Raw : Df :=
  [("team_name", [.str "Boston Bruins"]), ("year", [.str "1990"]),
   ("wins", [Cell.na]), ("losses", [.str "24"]), ("ot_losses", [Cell.na]),
   ("win_pct", [.str "0.55"]), ("goals_for", [.str "299"]),
   ("goals_against", [.str "264"]), ("goals_diff", [.str "35"]),
   ("scrape_timestamp", [.str "2023-10-01 12:00:00"])]


def c10Df : StatsDf :=
  [("A", [("wins", 7)]), ("B", [("wins", 5)]), ("C", [("wins", 1)])]


/-! Helper lemmas about the extractor's row loop. -/

theorem extractRows_length (stamp : Nat → String) :
    ∀ (i : Nat) (rows : List TeamRow),
      (extractRows stamp i rows).length = rows.length
  | _, [] => rfl
  | i, _ :: rs => by
    simp [extractRows, extractRows_length stamp (i + 1) rs]

theorem extractRows_getElem? (stamp : Nat → String) :
    ∀ (rows : List TeamRow) (j i : Nat),
      (extractRows stamp j rows)[i]? =
        (rows[i]?).map (fun r => mkHockey (stamp (j + i)) r)
  | [], _, _ => by simp [extractRows]
  | r :: rs, j, 0 => by simp [extractRows]
  | r :: rs, j, i + 1 => by
    have h : j + 1 + i = j + (i + 1) := by omega
    simp only [extractRows, List.getElem?_cons_succ]
    rw [extractRows_getElem? stamp rs (j + 1) i, h]

/-- C1: for every fetched page whose table contains `k` well-formed team
rows, `fetch_hockey_stats` returns exactly `k` records; record `i` carries
all ten fields, the nine cell texts of row `i` with surrounding whitespace
trimmed and kept as text, plus that row's own scrape timestamp. -/
theorem c1_extractor_one_record_per_row (net : Network) (stamp : Nat → String)
    (url : String) (resp : Response) (hnet : net url = .ok resp) :
    ∃ recs : List Hockey,
      fetch_hockey_stats net stamp url = .ok recs ∧
      recs.length = resp.page.rows.length ∧
      ∀ (i : Nat) (h2 : i < resp.page.rows.length),
        recs[i]? = some
          { team_name := pyStrip (resp.page.rows.get ⟨i, h2⟩).name
            year := pyStrip (resp.page.rows.get ⟨i, h2⟩).year
            wins := pyStrip (resp.page.rows.get ⟨i, h2⟩).wins
            losses := pyStrip (resp.page.rows.get ⟨i, h2⟩).losses
            ot_losses := pyStrip (resp.page.rows.get ⟨i, h2⟩).ot_losses
            win_pct := pyStrip (resp.page.rows.get ⟨i, h2⟩).pct
            goals_for := pyStrip (resp.page.rows.get ⟨i, h2⟩).gf
            goals_against := pyStrip (resp.page.rows.get ⟨i, h2⟩).ga
            goals_diff := pyStrip (resp.page.rows.get ⟨i, h2⟩).diff
            scrape_timestamp := stamp i } := by
  refine ⟨extractRows stamp 0 resp.page.rows, ?_,
    extractRows_length stamp 0 _, ?_⟩
  · simp [fetch_hockey_stats, hnet]
  · intro i h2
    rw [extractRows_getElem? stamp _ 0 i, List.getElem?_eq_getElem h2]
    simp [mkHockey, List.get_eq_getElem]

theorem c1_extractor_one_record_per_row_witness :
    ∃ recs : List Hockey,
      fetch_hockey_stats c1Net (fun i => toString i) "u" = .ok recs ∧
      recs.length = (Page.mk [c1Row] none).rows.length ∧
      ∀ (i : Nat) (h2 : i < (Page.mk [c1Row] none).rows.length),
        recs[i]? = some
          { team_name := pyStrip ((Page.mk [c1Row] none).rows.get ⟨i, h2⟩).name
            year := pyStrip ((Page.mk [c1Row] none).rows.get ⟨i, h2⟩).year
            wins := pyStrip ((Page.mk [c1Row] none).rows.get ⟨i, h2⟩).wins
            losses := pyStrip ((Page.mk [c1Row] none).rows.get ⟨i, h2⟩).losses
            ot_losses := pyStrip ((Page.mk [c1Row] none).rows.get ⟨i, h2⟩).ot_losses
            win_pct := pyStrip ((Page.mk [c1Row] none).rows.get ⟨i, h2⟩).pct
            goals_for := pyStrip ((Page.mk [c1Row] none).rows.get ⟨i, h2⟩).gf
            goals_against := pyStrip ((Page.mk [c1Row] none).rows.get ⟨i, h2⟩).ga
            goals_diff := pyStrip ((Page.mk [c1Row] none).rows.get ⟨i, h2⟩).diff
            scrape_timestamp := toString i } :=
  c1_extractor_one_record_per_row c1Net (fun i => toString i) "u"
    ⟨200, ⟨[c1Row], none⟩⟩ rfl

theorem extractRows_map_eraseTs (s1 s2 : Nat → String) :
    ∀ (rows : List TeamRow) (i j : Nat),
      (extractRows s1 i rows).map eraseTs = (extractRows s2 j rows).map eraseTs
  | [], _, _ => rfl
  | r :: rs, i, j => by
    simp [extractRows, eraseTs, mkHockey,
      extractRows_map_eraseTs s1 s2 rs (i + 1) (j + 1)]

/-- C8: extraction is deterministic up to the timestamp: over the same
fetched text, two runs of `fetch_hockey_stats` with different clocks give
record lists of the same length that agree on every field except
`scrape_timestamp`. -/
theorem c8_deterministic_up_to_timestamp (net : Network) (url : String)
    (s1 s2 : Nat → String) :
    Except.map (fun l => l.map eraseTs) (fetch_hockey_stats net s1 url) =
      Except.map (fun l => l.map eraseTs) (fetch_hockey_stats net s2 url) ∧
    Except.map (fun l => l.length) (fetch_hockey_stats net s1 url) =
      Except.map (fun l => l.length) (fetch_hockey_stats net s2 url) := by
  cases hn : net url with
  | error e => simp [fetch_hockey_stats, hn]
  | ok resp =>
    constructor
    · simp [fetch_hockey_stats, hn, Except.map,
        extractRows_map_eraseTs s1 s2 resp.page.rows 0 0]
    · simp [fetch_hockey_stats, hn, Except.map, extractRows_length]

/-! Helper lemmas about `urljoin` on root-relative references. -/

theorem urljoin_root_relative (base href : String)
    (h1 : href.data.head? = some '/')
    (h2 : (href.data.drop 1).head? ≠ some '/') :
    urljoin base href = originOf base ++ href := by
  obtain ⟨t, ht⟩ : ∃ t, href.data = '/' :: t := by
    cases hd : href.data with
    | nil => rw [hd] at h1; cases h1
    | cons c cs =>
      rw [hd] at h1
      simp only [List.head?_cons, Option.some.injEq] at h1
      exact ⟨cs, by rw [h1]⟩
  have hne : href ≠ "" := by
    intro he
    rw [he] at ht
    cases ht
  have hs : hasScheme href.data = false := by
    rw [ht]
    simp [hasScheme, show ('/').isAlpha = false from rfl]
  have htake : href.data.take 2 ≠ ['/', '/'] := by
    rw [ht] at h2 ⊢
    simp only [List.drop_succ_cons, List.drop_zero] at h2
    cases t with
    | nil => simp
    | cons c cs =>
      simp only [List.head?_cons, ne_eq, Option.some.injEq] at h2
      simp [h2]
  have hhead : href.data.head? = some '/' := h1
  rw [urljoin, if_neg hne, if_neg (by simp [hs]), if_neg htake, if_pos hhead]

/-- C3: whenever the fetched page's pagination section contains a "Next"
anchor whose `href` is root-relative, `get_next_page_url` returns that
`href` resolved against the fixed root origin
`https://www.scrapethissite.com` as an absolute URL; whenever no such
anchor exists it returns `none`, as a normal value and not an error. -/
theorem c3_next_url_resolved_or_none (net : Network) (url : String)
    (resp : Response) (hnet : net url = .ok resp) :
    (∀ href : String, resp.page.nextAnchor = some ⟨some href⟩ →
      href.data.head? = some '/' → (href.data.drop 1).head? ≠ some '/' →
      get_next_page_url net url =
        .ok (some ("https://www.scrapethissite.com" ++ href))) ∧
    (resp.page.nextAnchor = none → get_next_page_url net url = .ok none) := by
  constructor
  · intro href hanchor hh1 hh2
    have hor : originOf ROOT_URL = "https://www.scrapethissite.com" := by decide
    simp only [get_next_page_url, hnet, hanchor]
    rw [urljoin_root_relative ROOT_URL href hh1 hh2, hor]
  · intro hanchor
    simp [get_next_page_url, hnet, hanchor]

theorem c3_next_url_resolved_or_none_witness :
    get_next_page_url c3Net
        "https://www.scrapethissite.com/pages/forms/?page_num=2" =
      .ok (some ("https://www.scrapethissite.com" ++
        "/pages/forms/?page_num=3")) ∧
    get_next_page_url c3Net "https://www.scrapethissite.com/pages/forms/?page_num=24" =
      .ok none :=
  ⟨(c3_next_url_resolved_or_none c3Net
      "https://www.scrapethissite.com/pages/forms/?page_num=2"
      ⟨200, ⟨[], some ⟨some "/pages/forms/?page_num=3"⟩⟩⟩ rfl).1
      "/pages/forms/?page_num=3" rfl (by decide) (by decide),
   (c3_next_url_resolved_or_none c3Net
      "https://www.scrapethissite.com/pages/forms/?page_num=24"
      ⟨200, ⟨[], none⟩⟩ rfl).2 rfl⟩

/-- C4 counterexample: the code never calls `raise_for_status`, so a non-2xx
HTTP response is not a network error for `get_next_page_url`: on a 404
response whose body has no "Next" anchor, the walker returns the
"no next page" value instead of propagating an error. -/
theorem c4_counterexample_non2xx_not_error :
    c4Net "https://www.scrapethissite.com/pages/forms/?page_num=1" =
      .ok ⟨404, ⟨[], none⟩⟩ ∧
    get_next_page_url c4Net
      "https://www.scrapethissite.com/pages/forms/?page_num=1" = .ok none :=
  ⟨rfl, rfl⟩

/-- C4 (amended): every transport-level failure of the fetch (DNS,
connection, timeout — an `httpx.HTTPError`) propagates out of
`get_next_page_url` as a distinguishable network error, never swallowed or
converted into the "no next page" result; a non-2xx HTTP response, however,
does not raise: the status code is ignored and the body is parsed like any
other page. -/
theorem c4_transport_error_propagates (net : Network) (url : String) :
    (∀ e : String, net url = .error e →
      get_next_page_url net url = .error (.http e)) ∧
    (∀ (p : Page) (s1 s2 : Nat),
      get_next_page_url (fun _ => .ok ⟨s1, p⟩) url =
        get_next_page_url (fun _ => .ok ⟨s2, p⟩) url) := by
  constructor
  · intro e he
    simp [get_next_page_url, he]
  · intro p s1 s2
    simp [get_next_page_url]

theorem c4_transport_error_propagates_witness :
    get_next_page_url (fun _ => .error "connection timed out") "u" =
      .error (.http "connection timed out") ∧
    get_next_page_url (fun _ => .ok ⟨200, ⟨[], none⟩⟩) "u" =
      get_next_page_url (fun _ => .ok ⟨500, ⟨[], none⟩⟩) "u" :=
  ⟨(c4_transport_error_propagates (fun _ => .error "connection timed out")
      "u").1 "connection timed out" rfl,
   (c4_transport_error_propagates (fun _ => .ok ⟨200, ⟨[], none⟩⟩) "u").2
      ⟨[], none⟩ 200 500⟩

/-- C5: on every successfully fetched page whose HTML lacks the "Next"
pagination anchor, `css_first` yields `None`, the `.attrs` access raises
`AttributeError`, and `get_next_page_url` catches it and returns `none`
instead of raising — indistinguishable from legitimate end of
pagination. -/
theorem c5_missing_next_treated_as_end (net : Network) (url : String)
    (resp : Response) (hnet : net url = .ok resp)
    (hanchor : resp.page.nextAnchor = none) :
    get_next_page_url net url = .ok none := by
  simp [get_next_page_url, hnet, hanchor]

theorem c5_missing_next_treated_as_end_witness :
    get_next_page_url
      (fun _ => .ok ⟨200, ⟨[⟨"Gulls", "2001", "1", "2", "3", "4", "5", "6", "7"⟩], none⟩⟩)
      "https://www.scrapethissite.com/pages/forms/?page_num=24" = .ok none :=
  c5_missing_next_treated_as_end _ _
    ⟨200, ⟨[⟨"Gulls", "2001", "1", "2", "3", "4", "5", "6", "7"⟩], none⟩⟩ rfl rfl

/-! C2: failure semantics of the orchestrator. -/

/-- C2 (code bug): when page 2's fetch fails with a network error, the rows
of page 1 are written and nothing further (as the claim says), and the
failing recursive invocation does return a message naming page 2's URL and
the cause — but `scrape_and_write_stats` discards the recursive call's
return value, so the top-level call started at page 1 returns `None` and
its caller never receives the error. -/
theorem c2_error_message_lost_on_later_pages :
    (scrape_and_write_stats c2Net c2Stamp 3 c2StartUrl).written =
      [mkHockey "2023-10-01 12:00:00" c2Row] ∧
    (scrape_and_write_stats c2Net c2Stamp 3 c2StartUrl).outcome =
      .returned none ∧
    (scrape_and_write_stats c2Net c2Stamp 2 c2Page2Url).outcome =
      .returned (some (httpErrMsg c2Page2Url "connection timed out")) := by
  decide

/-! C7: layout of the CSV sink produced by the `__main__` block. -/

theorem lookup_setFile_self (fs : Fs) (p : String) (c : List (List String)) :
    ((setFile fs p c).files).lookup p = some c := by
  simp [setFile, List.lookup]

theorem setFile_dirs (fs : Fs) (p : String) (c : List (List String)) :
    (setFile fs p c).dirs = fs.dirs := rfl

theorem appendRows_dirs (fs : Fs) (p : String) (rs : List (List String)) :
    (appendRows fs p rs).dirs = fs.dirs := by
  unfold appendRows
  cases (fs.files).lookup p <;> rfl

theorem appendRows_setFile (fs : Fs) (p : String) (c : List (List String))
    (rs : List (List String)) :
    appendRows (setFile fs p c) p rs = setFile (setFile fs p c) p (c ++ rs) := by
  unfold appendRows
  rw [lookup_setFile_self]

theorem mem_makedirs (fs : Fs) (d : String) : d ∈ (makedirs fs d).dirs := by
  unfold makedirs
  split
  · assumption
  · exact List.mem_cons_self d fs.dirs

/-- C7: on every run, the `__main__` block creates the output directory if
absent, truncates any existing file at the target path (the final content
does not depend on the initial file system), and the file holds exactly one
header row — the ten `Hockey` field names in declaration order — followed
by the data rows the orchestrator wrote. -/
theorem c7_sink_header_and_overwrite (net : Network)
    (stamp : String → Nat → String) (fuel : Nat) (fs0 : Fs) :
    OUTPUT_DIR_PATH ∈ (runMain net stamp fuel fs0).dirs ∧
    ((runMain net stamp fuel fs0).files).lookup (OUTPUT_DIR_PATH ++ FILE_NAME) =
      some (["team_name", "year", "wins", "losses", "ot_losses", "win_pct",
             "goals_for", "goals_against", "goals_diff", "scrape_timestamp"] ::
        ((scrape_and_write_stats net stamp fuel START_PAGE_URL).written.map
          hockeyRow)) := by
  unfold runMain
  dsimp only
  constructor
  · rw [appendRows_dirs, appendRows_dirs, setFile_dirs]
    exact mem_makedirs fs0 OUTPUT_DIR_PATH
  · rw [appendRows_setFile, appendRows_setFile, lookup_setFile_self]
    rfl

theorem chainUrl_length (i : Nat) :
    (chainUrl i).length = ROOT_URL.length + i := by
  simp [chainUrl]

theorem chainNet_at (n i : Nat) (h : i < n) :
    chainNet n (chainUrl i) = .ok ⟨200, chainPage n i⟩ := by
  unfold chainNet
  rw [chainUrl_length]
  simp [Nat.add_sub_cancel_left, h]

theorem chainHref_data (i : Nat) :
    (chainHref i).data = '/' :: List.replicate i 'a' := rfl

theorem urljoin_chainHref (i : Nat) :
    urljoin ROOT_URL (chainHref (i + 1)) = chainUrl (i + 1) := by
  have h1 : (chainHref (i + 1)).data.head? = some '/' := by
    rw [chainHref_data]
    rfl
  have h2 : ((chainHref (i + 1)).data.drop 1).head? ≠ some '/' := by
    rw [chainHref_data]
    simp [List.replicate_succ]
  rw [urljoin_root_relative ROOT_URL _ h1 h2]
  apply String.ext
  have hor : originOf ROOT_URL = "https://www.scrapethissite.com" := by decide
  rw [String.data_append, hor, chainHref_data]
  have hroot : ROOT_URL.data = "https://www.scrapethissite.com".data ++ ['/'] := rfl
  show _ = (ROOT_URL ++ String.mk (List.replicate (i + 1) 'a')).data
  rw [String.data_append, hroot, List.append_assoc]
  rfl

/-- One stack frame per page: starting the orchestrator at page `i` of an
`n`-page chain with `k = n - i` pages left consumes exactly `k` nested
frames. -/
theorem chain_depth :
    ∀ (k n i fuel : Nat), i + k = n → i < n → k ≤ fuel →
      (scrape_and_write_stats (chainNet n) c6Stamp fuel (chainUrl i)).depth = k
  | 0, n, i, fuel, hk, hi, _ => absurd hk (by omega)
  | k + 1, n, i, fuel, hk, hi, hf => by
    obtain ⟨f, rfl⟩ : ∃ f, fuel = f + 1 := ⟨fuel - 1, by omega⟩
    by_cases h2 : i + 1 < n
    · have ih := chain_depth k n (i + 1) f (by omega) h2 (by omega)
      unfold scrape_and_write_stats
      simp only [fetch_hockey_stats, chainNet_at n i hi, get_next_page_url,
        chainPage, h2, if_true, extractRows, urljoin_chainHref]
      rw [ih]
      omega
    · have hk0 : k = 0 := by omega
      subst hk0
      unfold scrape_and_write_stats
      simp [fetch_hockey_stats, chainNet_at n i hi, get_next_page_url,
        chainPage, h2, extractRows]

/-- C6 counterexample: `scrape_and_write_stats` recurses once per page, so
no constant bounds its stack depth: a `B + 1`-page chain forces depth
`B + 1 > B`. -/
theorem c6_counterexample_unbounded_stack : ¬ boundedStackClaim := by
  rintro ⟨B, hB⟩
  have h1 := chain_depth (B + 1) (B + 1) 0 (B + 1) (by omega) (by omega)
    (by omega)
  have h2 := hB (chainNet (B + 1)) c6Stamp (B + 1) (chainUrl 0)
  omega

/-- C6 (amended): the orchestrator walks pages by self-referential
recursion, not an iterative loop: over every `n`-page chain the call-stack
depth it consumes is exactly `n`, growing linearly with the page count. -/
theorem c6_stack_depth_linear_in_pages (n fuel : Nat) (h1 : 0 < n)
    (hf : n ≤ fuel) :
    (scrape_and_write_stats (chainNet n) c6Stamp fuel (chainUrl 0)).depth = n :=
  chain_depth n n 0 fuel (by omega) h1 hf

theorem c6_stack_depth_linear_in_pages_witness :
    0 < 3 ∧
    (scrape_and_write_stats (chainNet 3) c6Stamp 5 (chainUrl 0)).depth = 3 :=
  ⟨by decide, c6_stack_depth_linear_in_pages 3 5 (by decide) (by decide)⟩

/-! C9: the post-processing pipeline of `data_processor.py`. -/

/-- C9 counterexample: `fillna(0)` runs on the whole frame, so the missing
`wins` value is changed to `0` as well — the claim that all columns other
than `ot_losses` are left unchanged fails on this input. -/
theorem c9_counterexample_fillna_touches_all_columns :
    hockey_df c9Raw =
      some [("team_name", [.str "Boston Bruins"]), ("year", [.str "1990"]),
            ("wins", [.int 0]), ("losses", [.str "24"]),
            ("ot_losses", [.int 0]), ("win_pct", [.str "0.55"]),
            ("goals_for", [.str "299"]), ("goals_against", [.str "264"])] ∧
    c9Raw.lookup "wins" = some [Cell.na] := by
  decide

theorem mapColsM_map (f : (String × List Cell) → (String × List Cell))
    (g : (String × List Cell) → Option (String × List Cell)) :
    ∀ l : Df, mapColsM g (l.map f) = mapColsM (fun c => g (f c)) l
  | [] => rfl
  | c :: cs => by
    simp only [List.map_cons, mapColsM]
    rw [mapColsM_map f g cs]

theorem mapColsM_congr (g1 g2 : (String × List Cell) → Option (String × List Cell))
    (h : ∀ c, g1 c = g2 c) :
    ∀ l : Df, mapColsM g1 l = mapColsM g2 l
  | [] => rfl
  | c :: cs => by
    simp only [mapColsM]
    rw [h c, mapColsM_congr g1 g2 h cs]

/-- C9 (amended): for every raw dataframe, the pipeline drops exactly the
two columns `scrape_timestamp` and `goals_diff`, then — whenever an
`ot_losses` column is present — fills the missing values of EVERY remaining
column with zero (not only `ot_losses`), coerces `ot_losses` to integer and
`year` to text, and leaves the other columns' non-missing values
unchanged. -/
theorem c9_pipeline_matches_cleaned_spec (raw : Df) :
    hockey_df raw = cleanedSpec raw := by
  unfold hockey_df cleanedSpec dropColumns
  by_cases hall : (dropNames.all (fun n => raw.any (fun c => c.1 = n))) = true
  · rw [if_pos hall, if_pos hall]
    dsimp only
    by_cases hot :
        ((raw.filter (fun c => !(dropNames.contains c.1))).any
          (fun c => c.1 = "ot_losses")) = true
    · rw [if_pos hot]
      rw [mapColsM_map]
      apply mapColsM_congr
      intro c
      simp only [astypeCol, hot, if_true]
      split
      · rfl
      · split
        · rfl
        · rfl
    · rw [if_neg hot]
      apply mapColsM_congr
      intro c
      simp only [astypeCol, hot, if_false]
      split
      · rfl
      · split
        · rfl
        · rfl
  · rw [if_neg hall, if_neg hall]

/-! C10: correctness of the top-N / bottom-N aggregation helpers.
First, the standard facts about the stable insertion sort. -/

theorem insertSorted_perm (le : α → α → Bool) (a : α) :
    ∀ l : List α, List.Perm (insertSorted le a l) (a :: l)
  | [] => List.Perm.refl _
  | b :: bs => by
    unfold insertSorted
    split
    · exact List.Perm.refl _
    · exact (List.Perm.cons b (insertSorted_perm le a bs)).trans
        (List.Perm.swap a b bs)

theorem sortBy_perm (le : α → α → Bool) :
    ∀ l : List α, List.Perm (sortBy le l) l
  | [] => List.Perm.refl _
  | a :: as =>
    (insertSorted_perm le a (sortBy le as)).trans
      (List.Perm.cons a (sortBy_perm le as))

theorem insertSorted_pairwise (le : α → α → Bool)
    (htr : ∀ a b c, le a b = true → le b c = true → le a c = true)
    (hto : ∀ a b, le a b = true ∨ le b a = true) (a : α) :
    ∀ l : List α, l.Pairwise (fun x y => le x y = true) →
      (insertSorted le a l).Pairwise (fun x y => le x y = true)
  | [], _ => by simp [insertSorted]
  | b :: bs, hp => by
    have hp2 := List.pairwise_cons.mp hp
    unfold insertSorted
    by_cases hab : le a b = true
    · rw [if_pos hab]
      refine List.Pairwise.cons ?_ hp
      intro x hx
      rcases List.mem_cons.mp hx with h | h
      · rw [h]; exact hab
      · exact htr a b x hab (hp2.1 x h)
    · rw [if_neg hab]
      have hba : le b a = true := (hto a b).resolve_left hab
      refine List.Pairwise.cons ?_
        (insertSorted_pairwise le htr hto a bs hp2.2)
      intro x hx
      rcases List.mem_cons.mp ((insertSorted_perm le a bs).subset hx) with h | h
      · rw [h]; exact hba
      · exact hp2.1 x h

theorem sortBy_pairwise (le : α → α → Bool)
    (htr : ∀ a b c, le a b = true → le b c = true → le a c = true)
    (hto : ∀ a b, le a b = true ∨ le b a = true) :
    ∀ l : List α, (sortBy le l).Pairwise (fun x y => le x y = true)
  | [] => List.Pairwise.nil
  | a :: as =>
    insertSorted_pairwise le htr hto a _ (sortBy_pairwise le htr hto as)

theorem aggByTeam_map_fst (pairs : List (String × ℚ)) (agg_func : String) :
    (aggByTeam pairs agg_func).map (fun p => p.1) = teamKeys pairs := by
  unfold aggByTeam
  rw [List.map_map]
  exact List.map_id _

theorem teamKeys_nodup (pairs : List (String × ℚ)) :
    (teamKeys pairs).Nodup :=
  ((sortBy_perm _ _).nodup_iff).mpr (List.nodup_dedup _)

theorem mem_aggByTeam (pairs : List (String × ℚ)) (agg_func : String)
    (p : String × ℚ) (hp : p ∈ aggByTeam pairs agg_func) :
    p.1 ∈ teamKeys pairs ∧
      p.2 = applyAgg agg_func (groupVals pairs p.1) := by
  unfold aggByTeam at hp
  rcases List.mem_map.mp hp with ⟨k, hk, he⟩
  rw [← he]
  exact ⟨hk, rfl⟩

/-- Shared facts about `(sortBy le (aggByTeam pairs f)).take n`, the common
shape of `top_n_teams` and `bottom_n_teams`. -/
theorem sortTake_bundle (le : (String × ℚ) → (String × ℚ) → Bool)
    (htr : ∀ a b c, le a b = true → le b c = true → le a c = true)
    (hto : ∀ a b, le a b = true ∨ le b a = true)
    (pairs : List (String × ℚ)) (agg_func : String) (n : Nat) :
    ((sortBy le (aggByTeam pairs agg_func)).take n).length ≤ n ∧
    ((sortBy le (aggByTeam pairs agg_func)).take n).length =
      min n (teamKeys pairs).length ∧
    (((sortBy le (aggByTeam pairs agg_func)).take n).map
      (fun p => p.1)).Nodup ∧
    (∀ p ∈ (sortBy le (aggByTeam pairs agg_func)).take n,
      p.1 ∈ teamKeys pairs ∧
      p.2 = applyAgg agg_func (groupVals pairs p.1)) ∧
    ((sortBy le (aggByTeam pairs agg_func)).take n).Pairwise
      (fun x y => le x y = true) ∧
    (∀ p ∈ (sortBy le (aggByTeam pairs agg_func)).take n,
      ∀ q ∈ aggByTeam pairs agg_func,
        q ∉ (sortBy le (aggByTeam pairs agg_func)).take n →
          le p q = true) := by
  have hperm : List.Perm (sortBy le (aggByTeam pairs agg_func))
      (aggByTeam pairs agg_func) := sortBy_perm le _
  have hpair : (sortBy le (aggByTeam pairs agg_func)).Pairwise
      (fun x y => le x y = true) := sortBy_pairwise le htr hto _
  refine ⟨?_, ?_, ?_, ?_, ?_, ?_⟩
  · rw [List.length_take]
    exact Nat.min_le_left _ _
  · rw [List.length_take, hperm.length_eq]
    unfold aggByTeam
    rw [List.length_map]
  · have hnd : ((sortBy le (aggByTeam pairs agg_func)).map
        (fun p => p.1)).Nodup := by
      have hm := hperm.map (fun p : String × ℚ => p.1)
      rw [aggByTeam_map_fst] at hm
      exact hm.nodup_iff.mpr (teamKeys_nodup pairs)
    exact ((List.take_sublist n _).map (fun p : String × ℚ => p.1)).nodup hnd
  · intro p hp
    exact mem_aggByTeam pairs agg_func p
      (hperm.subset (List.take_subset n _ hp))
  · exact List.Pairwise.sublist (List.take_sublist n _) hpair
  · intro p hp q hq hqn
    have hqS : q ∈ sortBy le (aggByTeam pairs agg_func) :=
      hperm.symm.subset hq
    have hsplit := List.take_append_drop n (sortBy le (aggByTeam pairs agg_func))
    have hq2 : q ∈ (sortBy le (aggByTeam pairs agg_func)).take n ++
        (sortBy le (aggByTeam pairs agg_func)).drop n := by
      rw [hsplit]
      exact hqS
    rcases List.mem_append.mp hq2 with h | h
    · exact absurd h hqn
    · have hp3 := hpair
      rw [← hsplit] at hp3
      exact (List.pairwise_append.mp hp3).2.2 p hp q h

/-- C10: for every analysis dataframe and every `n`, `top_n_teams` returns
at most `n` rows — exactly `min n (number of teams)` rows, so the result
consists of the `n` largest aggregates whenever `n` teams exist — one row
per team, each row's value being the per-team aggregate of the named
column under the given aggregation function; the rows are ordered from
largest to smallest and every omitted team's aggregate is `≤` every listed
one; `bottom_n_teams` symmetrically returns the `n` smallest aggregates
ordered from smallest to largest. -/
theorem c10_top_bottom_aggregates (df : StatsDf)
    (column_name agg_func : String) (n : Nat) :
    ((top_n_teams df column_name agg_func n).length ≤ n ∧
     (top_n_teams df column_name agg_func n).length =
       min n (teamKeys (selectTeamCol df column_name)).length ∧
     ((top_n_teams df column_name agg_func n).map (fun p => p.1)).Nodup ∧
     (∀ p ∈ top_n_teams df column_name agg_func n,
        p.1 ∈ teamKeys (selectTeamCol df column_name) ∧
        p.2 = applyAgg agg_func
          (groupVals (selectTeamCol df column_name) p.1)) ∧
     (top_n_teams df column_name agg_func n).Pairwise
        (fun a b => b.2 ≤ a.2) ∧
     (∀ p ∈ top_n_teams df column_name agg_func n,
        ∀ q ∈ aggByTeam (selectTeamCol df column_name) agg_func,
          q ∉ top_n_teams df column_name agg_func n → q.2 ≤ p.2)) ∧
    ((bottom_n_teams df column_name agg_func n).length ≤ n ∧
     (bottom_n_teams df column_name agg_func n).length =
       min n (teamKeys (selectTeamCol df column_name)).length ∧
     ((bottom_n_teams df column_name agg_func n).map (fun p => p.1)).Nodup ∧
     (∀ p ∈ bottom_n_teams df column_name agg_func n,
        p.1 ∈ teamKeys (selectTeamCol df column_name) ∧
        p.2 = applyAgg agg_func
          (groupVals (selectTeamCol df column_name) p.1)) ∧
     (bottom_n_teams df column_name agg_func n).Pairwise
        (fun a b => a.2 ≤ b.2) ∧
     (∀ p ∈ bottom_n_teams df column_name agg_func n,
        ∀ q ∈ aggByTeam (selectTeamCol df column_name) agg_func,
          q ∉ bottom_n_teams df column_name agg_func n → p.2 ≤ q.2)) := by
  have htop := sortTake_bundle (fun a b => decide (b.2 ≤ a.2))
    (by
      intro a b c h1 h2
      exact decide_eq_true
        (le_trans (of_decide_eq_true h2) (of_decide_eq_true h1)))
    (by
      intro a b
      rcases le_total a.2 b.2 with h | h
      · exact Or.inr (decide_eq_true h)
      · exact Or.inl (decide_eq_true h))
    (selectTeamCol df column_name) agg_func n
  have hbot := sortTake_bundle (fun a b => decide (a.2 ≤ b.2))
    (by
      intro a b c h1 h2
      exact decide_eq_true
        (le_trans (of_decide_eq_true h1) (of_decide_eq_true h2)))
    (by
      intro a b
      rcases le_total a.2 b.2 with h | h
      · exact Or.inl (decide_eq_true h)
      · exact Or.inr (decide_eq_true h))
    (selectTeamCol df column_name) agg_func n
  constructor
  · refine ⟨htop.1, htop.2.1, htop.2.2.1, htop.2.2.2.1, ?_, ?_⟩
    · exact htop.2.2.2.2.1.imp (fun h => of_decide_eq_true h)
    · intro p hp q hq hqn
      exact of_decide_eq_true (htop.2.2.2.2.2 p hp q hq hqn)
  · refine ⟨hbot.1, hbot.2.1, hbot.2.2.1, hbot.2.2.2.1, ?_, ?_⟩
    · exact hbot.2.2.2.2.1.imp (fun h => of_decide_eq_true h)
    · intro p hp q hq hqn
      exact of_decide_eq_true (hbot.2.2.2.2.2 p hp q hq hqn)

theorem c10_top_bottom_aggregates_witness :
    (top_n_teams c10Df "wins" "max" 2).length ≤ 2 ∧
    (top_n_teams c10Df "wins" "max" 2).length =
      min 2 (teamKeys (selectTeamCol c10Df "wins")).length ∧
    ("A" ∈ teamKeys (selectTeamCol c10Df "wins") ∧
      (7 : ℚ) = applyAgg "max" (groupVals (selectTeamCol c10Df "wins") "A")) ∧
    ((1 : ℚ) ≤ (5 : ℚ)) ∧ ((5 : ℚ) ≤ (7 : ℚ)) := by
  have h := c10_top_bottom_aggregates c10Df "wins" "max" 2
  refine ⟨h.1.1, h.1.2.1, ?_, ?_, ?_⟩
  · exact h.1.2.2.2.1 ("A", (7 : ℚ)) (by decide)
  · exact h.1.2.2.2.2.2 ("B", (5 : ℚ)) (by decide) ("C", (1 : ℚ)) (by decide)
      (by decide)
  · exact h.2.2.2.2.2.2 ("B", (5 : ℚ)) (by decide) ("A", (7 : ℚ)) (by decide)
      (by decide)

end HockeyTeams
